import Mathlib

/-!
Verification of the `ec2-test-apps` repository: a shallow embedding of its
rhythm-service and code-fix-generator modules, with theorems settling the
documented behavioural properties.

Conventions of the embedding:
* Python ints are modelled as `ℤ` (or `ℕ` where the source only ever sees
  naturals), Python floats as `ℚ`; where binary64 rounding matters it is
  modelled explicitly (`floatRound`).
* Fallible code returns `Option`: `none` models an uncaught Python exception.
* Python dicts with a fixed key set are modelled as structures; JSON payloads
  whose exact key list matters are modelled as association lists.
-/

/-- Labels used throughout the services for song sections. -/
def section_labels : List String := ["intro", "verse", "chorus", "bridge", "outro"]

/-- Error-type labels used by the error generator. -/
def error_type_labels : List String :=
  ["basic", "business", "chaotic", "philosophical", "minimal"]

/-- Embedding of `SongStructureAnalyzer._classify_section`
(src/rhythm-service/song_structure.py, lines 114-144).  The Python literal
`0.6` (a binary64 float) is modelled as the rational `3/5`: the float
comparison `section_num > total_sections * 0.6` agrees with the rational one
for every section count whose magnitude is far below `2^47`, because
`total_sections * 0.6` differs from `3/5 * total_sections` by less than
`10^-15 * total_sections`, while the rational is never closer than `1/5` to a
different side of an integer. -/
def classify_section (section_num : ℤ) (loudness : ℚ) (tempo : ℚ)
    (total_sections : ℤ) : String :=
  if section_num = 0 then "intro"
  else if section_num = total_sections - 1 then "outro"
  else if loudness > -10 then "chorus"
  else if (section_num : ℚ) > (total_sections : ℚ) * (3 / 5)
          ∧ section_num < total_sections - 1 then "bridge"
  else "verse"

/-- The classification table exactly as the specification's ordered table
states it, with the bridge row read as the half-open interval
`[0.6 * N, N - 1)` (closed lower end). -/
def classify_section_claimed (i : ℤ) (loudness : ℚ) (n : ℤ) : String :=
  if i = 0 then "intro"
  else if i = n - 1 then "outro"
  else if loudness > -10 then "chorus"
  else if (3 / 5 : ℚ) * (n : ℚ) ≤ (i : ℚ) ∧ (i : ℚ) < (n : ℚ) - 1 then "bridge"
  else "verse"

/-- The classification table with the bridge row amended to the open-ended
interval `(0.6 * N, N - 1)`, matching the code's strict comparison. -/
def classify_section_spec (i : ℤ) (loudness : ℚ) (n : ℤ) : String :=
  if i = 0 then "intro"
  else if i = n - 1 then "outro"
  else if loudness > -10 then "chorus"
  else if (3 / 5 : ℚ) * (n : ℚ) < (i : ℚ) ∧ (i : ℚ) < (n : ℚ) - 1 then "bridge"
  else "verse"

/-- Embedding of `RhythmController.get_error_type_for_section`
(src/rhythm-service/rhythm_service.py, lines 85-102): a dict lookup with
default `"basic"`, written as an if-chain over the five distinct keys. -/
def get_error_type_for_section (sect : String) : String :=
  if sect = "intro" then "minimal"
  else if sect = "verse" then "basic"
  else if sect = "chorus" then "business"
  else if sect = "bridge" then "chaotic"
  else if sect = "outro" then "philosophical"
  else "basic"

/-- A section of the demo driver's beat-indexed song structure
(src/rhythm-service/demo_rhythm_errors.py): a dict with keys
`section`, `start_beat`, `end_beat`, `error_type`. -/
structure BeatSection where
  sect : String
  start_beat : ℤ
  end_beat : ℤ
  error_type : String
deriving DecidableEq, Repr

/-- Embedding of `SongSimulator.create_song_structure`
(src/rhythm-service/demo_rhythm_errors.py, lines 346-383): the canonical
ten-section pop-song structure. -/
def create_song_structure : List BeatSection :=
  [ ⟨"intro", 0, 8, "basic"⟩,
    ⟨"verse", 8, 24, "basic"⟩,
    ⟨"pre-chorus", 24, 32, "business"⟩,
    ⟨"chorus", 32, 48, "business"⟩,
    ⟨"verse", 48, 64, "basic"⟩,
    ⟨"pre-chorus", 64, 72, "business"⟩,
    ⟨"chorus", 72, 88, "business"⟩,
    ⟨"bridge", 88, 104, "chaotic"⟩,
    ⟨"chorus", 104, 120, "business"⟩,
    ⟨"outro", 120, 128, "philosophical"⟩ ]

/-- Embedding of `SongSimulator.get_section_at_beat`
(src/rhythm-service/demo_rhythm_errors.py, lines 385-390): return the first
section whose beat range contains the beat, else the last section;
`none` models the `IndexError` that `structure[-1]` raises on an empty list. -/
def get_section_at_beat (st : List BeatSection) (beat_num : ℤ) : Option BeatSection :=
  match st.find? (fun s => decide (s.start_beat ≤ beat_num) && decide (beat_num < s.end_beat)) with
  | some s => some s
  | none => st.getLast?

/-- Well-formedness of a beat-indexed structure starting at beat `b`: the
sections are contiguous (each starts where the previous one ends) and each
beat range is nonempty — that is, the list is sorted by `start_beat` with
non-overlapping ranges covering an initial segment of beats. -/
def wellFormedFrom (b : ℤ) : List BeatSection → Bool
  | [] => true
  | s :: rest =>
      decide (s.start_beat = b) && decide (s.start_beat < s.end_beat) &&
        wellFormedFrom s.end_beat rest

/-- A section of the analyzer's time-indexed structures
(src/rhythm-service/song_structure.py): a dict with keys `start`,
`duration`, `type`, plus optional extra keys depending on which routine
built it. -/
structure PySection where
  start : ℚ
  duration : ℚ
  type : String
  loudness : Option ℚ := none
  tempo : Option ℚ := none
  energy : Option ℚ := none
  danceability : Option ℚ := none
deriving DecidableEq, Repr

/-- Embedding of `SongStructureAnalyzer._estimate_structure`
(src/rhythm-service/song_structure.py, lines 146-189).  The percentage
float literals are modelled as exact rationals; `audio_features.get` with
default `0.5` is modelled by `Option.getD`. -/
def estimate_structure (audio_energy audio_danceability : Option ℚ)
    (duration : ℚ) : List PySection :=
  let energy := audio_energy.getD (1 / 2)
  let danceability := audio_danceability.getD (1 / 2)
  [ ⟨0 * duration, (1 / 20) * duration, "intro", none, none, some energy, some danceability⟩,
    ⟨(1 / 20) * duration, (3 / 20) * duration, "verse", none, none, some energy, some danceability⟩,
    ⟨(1 / 5) * duration, (1 / 10) * duration, "chorus", none, none, some energy, some danceability⟩,
    ⟨(3 / 10) * duration, (3 / 20) * duration, "verse", none, none, some energy, some danceability⟩,
    ⟨(9 / 20) * duration, (1 / 10) * duration, "chorus", none, none, some energy, some danceability⟩,
    ⟨(3 / 5) * duration, (3 / 20) * duration, "bridge", none, none, some energy, some danceability⟩,
    ⟨(3 / 4) * duration, (3 / 20) * duration, "chorus", none, none, some energy, some danceability⟩,
    ⟨(9 / 10) * duration, (1 / 10) * duration, "outro", none, none, some energy, some danceability⟩ ]

/-- Embedding of `SongStructureAnalyzer._default_structure`
(src/rhythm-service/song_structure.py, lines 191-200). -/
def default_structure : List PySection :=
  [ ⟨0, 30, "verse", none, none, none, none⟩,
    ⟨30, 20, "chorus", none, none, none, none⟩,
    ⟨50, 30, "verse", none, none, none, none⟩,
    ⟨80, 20, "chorus", none, none, none, none⟩,
    ⟨100, 20, "bridge", none, none, none, none⟩,
    ⟨120, 30, "chorus", none, none, none, none⟩ ]

/-- Embedding of `SongStructureAnalyzer.get_section_at_time`
(src/rhythm-service/song_structure.py, lines 241-263): return the type of
the first section whose `[start, start + duration)` window contains the
time, else the last section's type, else `"verse"` on an empty structure. -/
def get_section_at_time (st : List PySection) (time_seconds : ℚ) : String :=
  match st.find? (fun s =>
      decide (s.start ≤ time_seconds) && decide (time_seconds < s.start + s.duration)) with
  | some s => s.type
  | none =>
      match st.getLast? with
      | some s => s.type
      | none => "verse"

/-- JSON values occurring in the services' payloads and response bodies. -/
inductive JValue where
  | s (v : String)
  | i (v : ℤ)
  | q (v : ℚ)
  | b (v : Bool)
deriving DecidableEq, Repr

/-- An outbound HTTP POST as the trigger code performs it: target path,
JSON payload (an association list, preserving key order), timeout in
seconds. -/
structure SentRequest where
  path : String
  payload : List (String × JValue)
  timeout : ℕ
deriving DecidableEq, Repr

/-- Outcome of the POST as seen by the Python `requests` call: either a
response with some status code, or a raised
`requests.exceptions.RequestException`. -/
inductive HttpResult where
  | ok (status : ℕ)
  | requestError
deriving DecidableEq, Repr

/-- The log record the trigger code emits: `logger.info` on success,
`logger.warning` on a non-200 status, `logger.error` on a request
exception. -/
inductive LogEvent where
  | success
  | warning
  | failure
deriving DecidableEq, Repr

/-- Observable result of one trigger call: the request it sent, the log it
wrote, and its return value. -/
structure TriggerOutcome (ρ : Type) where
  request : SentRequest
  log : LogEvent
  ret : ρ

/-- The payload built by `RhythmController.trigger_error`
(src/rhythm-service/rhythm_service.py, lines 116-123), in source order. -/
def controller_trigger_payload (error_type : String) (beat_num : ℤ)
    (current_section : String) (current_tempo : ℚ) : List (String × JValue) :=
  [ ("trigger", JValue.s "rhythm"),
    ("error_type", JValue.s error_type),
    ("beat", JValue.i beat_num),
    ("section", JValue.s current_section),
    ("tempo", JValue.q current_tempo) ]

/-- Embedding of `RhythmController.trigger_error`
(src/rhythm-service/rhythm_service.py, lines 108-138): builds the payload,
POSTs it with timeout 2, logs per outcome, and returns `None` on every
path (the function body has no `return` statement); the
`except requests.exceptions.RequestException` clause means a request
failure never propagates.  Parsing of the 200-response body is elided: it
only feeds the success log message. -/
def controller_trigger_error (error_type : String) (beat_num : ℤ)
    (current_section : String) (current_tempo : ℚ) (result : HttpResult) :
    TriggerOutcome (Option Bool) :=
  let req : SentRequest :=
    ⟨"/api/rhythm-trigger",
      controller_trigger_payload error_type beat_num current_section current_tempo, 2⟩
  match result with
  | .ok status => if status = 200 then ⟨req, .success, none⟩ else ⟨req, .warning, none⟩
  | .requestError => ⟨req, .failure, none⟩

/-- The payload built by `RhythmErrorTrigger.trigger_error`
(src/rhythm-service/demo_rhythm_errors.py, lines 441-448), in source order. -/
def demo_trigger_payload (error_type : String) (beat : ℤ)
    (sect : String) (tempo : ℚ) : List (String × JValue) :=
  [ ("trigger", JValue.s "rhythm"),
    ("error_type", JValue.s error_type),
    ("beat", JValue.i beat),
    ("section", JValue.s sect),
    ("tempo", JValue.q tempo) ]

/-- Embedding of `RhythmErrorTrigger.trigger_error`
(src/rhythm-service/demo_rhythm_errors.py, lines 439-469): builds the
payload, POSTs it with timeout 5, and returns `True` (incrementing
`trigger_count`) exactly on a 200 response, `False` on any other status,
and `False` — without raising — on a request exception.  The return value
is paired with the updated `trigger_count`. -/
def demo_trigger_error (beat : ℤ) (sect : String) (error_type : String)
    (tempo : ℚ) (trigger_count : ℕ) (result : HttpResult) :
    TriggerOutcome (Bool × ℕ) :=
  let req : SentRequest :=
    ⟨"/api/rhythm-trigger", demo_trigger_payload error_type beat sect tempo, 5⟩
  match result with
  | .ok status =>
      if status = 200 then ⟨req, .success, (true, trigger_count + 1)⟩
      else ⟨req, .warning, (false, trigger_count)⟩
  | .requestError => ⟨req, .failure, (false, trigger_count)⟩

/-- Round a rational to the nearest integer, ties to even, as IEEE 754
round-to-nearest-even does at integer granularity. -/
def roundHalfEven (x : ℚ) : ℤ :=
  let f := ⌊x⌋
  let r := x - (f : ℚ)
  if r < 1 / 2 then f
  else if r > 1 / 2 then f + 1
  else if f % 2 = 0 then f else f + 1

/-- Round a rational to the binary64 grid: the nearest number of the form
`m * 2 ^ e` with `2 ^ 52 ≤ |m| < 2 ^ 53`, ties to even.  The scaling
exponent `Int.log 2 |q| - 52` puts `|q| * 2 ^ (-e)` into `[2 ^ 52, 2 ^ 53)`
exactly.  The exponent range is unbounded, which coincides with IEEE 754
binary64 for all magnitudes far from overflow and subnormals — in
particular for every value the services compute.  This models the result of
a correctly rounded Python float division. -/
def floatRound (q : ℚ) : ℚ :=
  if q = 0 then 0
  else
    let e : ℤ := Int.log 2 |q| - 52
    ((roundHalfEven (q * (2 : ℚ) ^ (-e)) : ℤ) : ℚ) * (2 : ℚ) ^ e

/-- A rational is dyadic when it lies on some binary grid, i.e. is an
integer multiple of a power of two; binary64 floats are dyadic. -/
def IsDyadic (q : ℚ) : Prop := ∃ (m : ℤ) (e : ℤ), q = (m : ℚ) * (2 : ℚ) ^ e

/-- Embedding of `RhythmController.calculate_beat_interval`
(src/rhythm-service/rhythm_service.py, lines 104-106): the Python float
division `60.0 / self.current_tempo`, i.e. the binary64 rounding of the
exact quotient. -/
def calculate_beat_interval (current_tempo : ℚ) : ℚ :=
  floatRound (60 / current_tempo)

/-- The dictionary returned by `BeatDetector.detect_beats_from_features`
(src/rhythm-service/beat_detector.py, lines 117-141). -/
structure BeatFeatures where
  tempo : ℚ
  beat_interval : ℚ
  time_signature : ℤ
  energy : ℚ
  danceability : ℚ
deriving DecidableEq, Repr

/-- Embedding of `BeatDetector.detect_beats_from_features`
(src/rhythm-service/beat_detector.py, lines 117-141): reads tempo (default
120) and time signature (default 4) from the Spotify feature dict and
computes `beat_interval = 60.0 / tempo` by float division. -/
def detect_beats_from_features (f_tempo : Option ℚ) (f_time_signature : Option ℤ)
    (f_energy f_danceability : Option ℚ) : BeatFeatures :=
  let tempo := f_tempo.getD 120
  ⟨tempo, floatRound (60 / tempo), f_time_signature.getD 4,
    f_energy.getD (1 / 2), f_danceability.getD (1 / 2)⟩

/-- Literal opening brace character, written via its code point. -/
def lbrace : Char := Char.ofNat 123

/-- Literal closing brace character, written via its code point. -/
def rbrace : Char := Char.ofNat 125

/-- Scanner states of the `str.format` model: plain text, just after an
opening or closing brace, or inside a replacement field (accumulating the
field name in reverse). -/
inductive FmtState where
  | text
  | afterL
  | afterR
  | field (acc : List Char)

/-- Model of CPython's `str.format(slogan=...)` scanner, specialised to a
single keyword argument: doubled braces are literals; a replacement field
whose name is exactly `slogan` (no conversion, no format spec) is replaced
by the slogan; every other construct — a lone brace, an empty or unknown
field name, a `:` or `!` or nested brace inside a field — makes CPython
raise (`ValueError`, `KeyError` or `IndexError`), modelled as `none`.
This is exactly the behaviour of `str.format` on format strings whose only
well-formed field is `{slogan}` called with only the `slogan` keyword, which
covers every call the fix generator makes. -/
def formatGo (slogan : List Char) : FmtState → List Char → Option (List Char)
  | .text, [] => some []
  | .text, c :: rest =>
      if c = lbrace then formatGo slogan .afterL rest
      else if c = rbrace then formatGo slogan .afterR rest
      else (formatGo slogan .text rest).map (c :: ·)
  | .afterL, [] => none
  | .afterL, c :: rest =>
      if c = lbrace then (formatGo slogan .text rest).map (lbrace :: ·)
      else if c = rbrace ∨ c = ':' ∨ c = '!' then none
      else formatGo slogan (.field [c]) rest
  | .afterR, [] => none
  | .afterR, c :: rest =>
      if c = rbrace then (formatGo slogan .text rest).map (rbrace :: ·)
      else none
  | .field acc, [] => none
  | .field acc, c :: rest =>
      if c = rbrace then
        if acc.reverse = "slogan".toList then
          (formatGo slogan .text rest).map (slogan ++ ·)
        else none
      else if c = lbrace ∨ c = ':' ∨ c = '!' then none
      else formatGo slogan (.field (c :: acc)) rest

/-- Run the `str.format(slogan=...)` model on a template string. -/
def pythonFormatSlogan (template slogan : String) : Option String :=
  (formatGo slogan.toList .text template.toList).map String.mk

/-- First entry of `FALLBACK_FIXES`
(src/code-fix-generator/satirical_fix_generator.py, lines 56-73), the
Python `SchrodingerPointer` template; apostrophes and braces are written
via escapes, the only replacement field is `{slogan}`. -/
def fallback_fix_0 : String :=
  "def fix_null_pointer():\n" ++
  "    \"\"\"\n" ++
  "    Fix NullPointer by simply refusing to acknowledge null exists.\n" ++
  "    Inspired by: {slogan}\n" ++
  "    \"\"\"\n" ++
  "    class SchrodingerPointer:\n" ++
  "        def __init__(self):\n" ++
  "            self.value = None  # Or is it?\n" ++
  "\n" ++
  "        def __getattribute__(self, name):\n" ++
  "            # If we don\x27t observe it, it\x27s both null and not null\n" ++
  "            if name == \x27value\x27:\n" ++
  "                import random\n" ++
  "                return random.choice([None, \"probably_fine\", 42])\n" ++
  "            return super().__getattribute__(name)\n" ++
  "\n" ++
  "    return SchrodingerPointer()  # Problem solved!\n"

/-- Second entry of `FALLBACK_FIXES`
(src/code-fix-generator/satirical_fix_generator.py, lines 75-95), the
JavaScript `fixTimeout` template.  Its JavaScript block braces are literal
single braces in the Python source (written here as escapes). -/
def fallback_fix_1 : String :=
  "async function fixTimeout() \x7b\n" ++
  "    /*\n" ++
  "     * Fix timeout by implementing quantum time dilation\n" ++
  "     * Based on wisdom: {slogan}\n" ++
  "     */\n" ++
  "    const TIME_UNCERTAINTY = 0.5;  // Heisenberg would approve\n" ++
  "\n" ++
  "    async function waitWithExistentialDread(ms) \x7b\n" ++
  "        console.log(\"⏳ Waiting... but what IS time, really?\");\n" ++
  "\n" ++
  "        // If time is relative, maybe the timeout already happened?\n" ++
  "        const schrodingerTime = Math.random() > TIME_UNCERTAINTY\n" ++
  "            ? 0  // Already done in another timeline\n" ++
  "            : ms * 1000;  // Make it longer, just to be sure\n" ++
  "\n" ++
  "        await new Promise(resolve => setTimeout(resolve, schrodingerTime));\n" ++
  "    \x7d\n" ++
  "\n" ++
  "    return await waitWithExistentialDread(1);\n" ++
  "\x7d\n"

/-- Third entry of `FALLBACK_FIXES`
(src/code-fix-generator/satirical_fix_generator.py, lines 97-121), the
Python `HeapOverflowHandler` template. -/
def fallback_fix_2 : String :=
  "class HeapOverflowHandler:\n" ++
  "    \"\"\"\n" ++
  "    Handle heap overflow with a factory pattern wrapped in observers.\n" ++
  "    Philosophy: {slogan}\n" ++
  "    \"\"\"\n" ++
  "\n" ++
  "    def __init__(self):\n" ++
  "        self.overflow_dimension = []  # Extra-dimensional storage\n" ++
  "\n" ++
  "    def handle_overflow(self, data):\n" ++
  "        # When the heap overflows, just put it somewhere else\n" ++
  "        # This is called \"problem deflection\" in academic circles\n" ++
  "\n" ++
  "        if len(self.overflow_dimension) > 1000000:\n" ++
  "            # If extra dimension overflows, create another one\n" ++
  "            self.overflow_dimension = [self.overflow_dimension]\n" ++
  "            print(\"🌌 Created nested dimension for overflow\")\n" ++
  "\n" ++
  "        self.overflow_dimension.append(data)\n" ++
  "        return True  # It\x27s handled (somewhere)\n" ++
  "\n" ++
  "    def get_data(self, index):\n" ++
  "        # Good luck finding it now!\n" ++
  "        return \"¯\\_(ツ)_/¯\"\n"

/-- Embedding of `FALLBACK_FIXES`
(src/code-fix-generator/satirical_fix_generator.py, lines 55-122). -/
def FALLBACK_FIXES : List String := [fallback_fix_0, fallback_fix_1, fallback_fix_2]

/-- Embedding of `generate_satirical_fix` on its fallback path — the path
taken whenever no DeepSeek client is configured, and also after any API
exception (src/code-fix-generator/satirical_fix_generator.py, lines
138-142 and 187-192): `random.choice(FALLBACK_FIXES)` is modelled by the
index `choice` it returns, and the chosen template is formatted with the
slogan keyword.  `none` models an exception raised by `str.format`.  The
error message and error type do not influence this path. -/
def generate_satirical_fix_fallback (choice : ℕ) (slogan : String) : Option String :=
  match FALLBACK_FIXES.get? choice with
  | some t => pythonFormatSlogan t slogan
  | none => none

/-- Outcome of the inner `generate_satirical_fix` call as the route handler
observes it: a returned fix string, or a raised exception with a message. -/
inductive GenOutcome where
  | ok (fix : String)
  | exn (msg : String)
deriving DecidableEq, Repr

/-- A JSON-object request body for `POST /api/generate-fix`, restricted to
the string-valued fields the handler reads; an absent field is `none`. -/
structure FixRequestBody where
  error : Option String
  slogan : Option String
  error_type : Option String
deriving DecidableEq, Repr

/-- Embedding of the `generate_fix` route handler
(src/code-fix-generator/satirical_fix_generator.py, lines 205-253) on
JSON-object bodies: missing fields default to `""`; an empty error or
slogan yields HTTP 400 with the fixed message; otherwise the inner
generation outcome `gen` determines a 200 response with the four-field
body, or — via the handler's broad `except` — a 500 response carrying the
exception's message. -/
def generate_fix (body : FixRequestBody) (gen : GenOutcome) :
    ℕ × List (String × JValue) :=
  let error := body.error.getD ""
  let slogan := body.slogan.getD ""
  if error = "" ∨ slogan = "" then
    (400, [("success", JValue.b false), ("error", JValue.s "Missing error or slogan")])
  else
    match gen with
    | .ok fix =>
        (200, [("success", JValue.b true), ("fix", JValue.s fix),
               ("error", JValue.s error), ("slogan", JValue.s slogan)])
    | .exn msg =>
        (500, [("success", JValue.b false), ("error", JValue.s msg)])

/-- The `generate_fix` handler composed with the fallback generator: the
behaviour of `POST /api/generate-fix` when no DeepSeek client is
configured and `random.choice` picks index `choice`; `msg` is the message
of the exception `str.format` raises when formatting fails. -/
def generate_fix_no_client (body : FixRequestBody) (choice : ℕ) (msg : String) :
    ℕ × List (String × JValue) :=
  generate_fix body
    (match generate_satirical_fix_fallback choice (body.slogan.getD "") with
     | some fix => .ok fix
     | none => .exn msg)

/-- C1 counterexample: at section index 6 of 10 with loudness -20 dB, the
code's strict comparison `6 > 10 * 0.6` fails and it returns `"verse"`,
while the claimed table's closed interval `[0.6 * N, N - 1)` contains 6 and
demands `"bridge"`; the claim as stated is therefore false. -/
theorem C1_counterexample :
    (classify_section 6 (-20) 120 10 = classify_section_claimed 6 (-20) 10) = False := by
  have h1 : classify_section 6 (-20) 120 10 = "verse" := by
    unfold classify_section
    norm_num
  have h2 : classify_section_claimed 6 (-20) 10 = "bridge" := by
    unfold classify_section_claimed
    norm_num
  rw [h1, h2]
  exact eq_false (by decide)

/-- C1 (amended): for every section index, loudness, tempo and section
count N ≥ 1, `_classify_section` agrees with the spec's ordered table once
the bridge row is read as the open-ended interval `(0.6 * N, N - 1)`, and
its result is always one of the five labels intro/verse/chorus/bridge/outro. -/
theorem C1_classification_table (i n : ℤ) (loudness tempo : ℚ) (hn : 1 ≤ n) :
    classify_section i loudness tempo n = classify_section_spec i loudness n ∧
    classify_section i loudness tempo n ∈ section_labels := by
  constructor
  · have hb : ((i : ℚ) > (n : ℚ) * (3 / 5) ∧ i < n - 1) ↔
        ((3 / 5 : ℚ) * (n : ℚ) < (i : ℚ) ∧ (i : ℚ) < (n : ℚ) - 1) := by
      constructor
      · rintro ⟨h1, h2⟩
        refine ⟨by rw [mul_comm] at h1; exact h1, ?_⟩
        have h3 : (i : ℚ) < ((n - 1 : ℤ) : ℚ) := Int.cast_lt.mpr h2
        push_cast at h3
        linarith
      · rintro ⟨h1, h2⟩
        refine ⟨by rw [mul_comm]; exact h1, ?_⟩
        have h3 : (i : ℚ) < ((n - 1 : ℤ) : ℚ) := by push_cast; linarith
        exact_mod_cast h3
    unfold classify_section classify_section_spec
    exact if_congr Iff.rfl rfl (if_congr Iff.rfl rfl (if_congr Iff.rfl rfl
      (if_congr hb rfl rfl)))
  · unfold classify_section
    split_ifs <;> simp [section_labels]

/-- C1 witness: the theorem instantiated at index 2 of 5 with loudness -20. -/
theorem C1_witness :
    classify_section 2 (-20) 100 5 = classify_section_spec 2 (-20) 5 ∧
    classify_section 2 (-20) 100 5 ∈ section_labels :=
  C1_classification_table 2 5 (-20) 100 (by norm_num)

/-- C2: `get_error_type_for_section` realises exactly the spec's table:
intro maps to minimal, verse to basic, chorus to business, bridge to
chaotic, and outro to philosophical. -/
theorem C2_error_type_table :
    get_error_type_for_section "intro" = "minimal" ∧
    get_error_type_for_section "verse" = "basic" ∧
    get_error_type_for_section "chorus" = "business" ∧
    get_error_type_for_section "bridge" = "chaotic" ∧
    get_error_type_for_section "outro" = "philosophical" := by
  refine ⟨?_, ?_, ?_, ?_, ?_⟩ <;> decide

/-- In a well-formed structure starting at beat `b`, every section starts at
or after `b`. -/
theorem wellFormedFrom_le_start (st : List BeatSection) :
    ∀ (b : ℤ) (S : BeatSection), wellFormedFrom b st = true → S ∈ st →
      b ≤ S.start_beat := by
  induction st with
  | nil => intro b S _ hmem; cases hmem
  | cons s rest ih =>
      intro b S hwf hmem
      simp only [wellFormedFrom, Bool.and_eq_true, decide_eq_true_eq] at hwf
      obtain ⟨⟨hstart, hlt⟩, hrest⟩ := hwf
      rcases List.mem_cons.mp hmem with h | h
      · subst h; omega
      · have := ih s.end_beat S hrest h
        omega

/-- In a well-formed structure, the linear search of `get_section_at_beat`
run at a member section's start beat finds exactly that section. -/
theorem wellFormedFrom_find_start (st : List BeatSection) :
    ∀ (b : ℤ) (S : BeatSection), wellFormedFrom b st = true → S ∈ st →
      st.find? (fun s =>
          decide (s.start_beat ≤ S.start_beat) && decide (S.start_beat < s.end_beat)) =
        some S := by
  induction st with
  | nil => intro b S _ hmem; cases hmem
  | cons s rest ih =>
      intro b S hwf hmem
      simp only [wellFormedFrom, Bool.and_eq_true, decide_eq_true_eq] at hwf
      obtain ⟨⟨hstart, hlt⟩, hrest⟩ := hwf
      rcases List.mem_cons.mp hmem with h | h
      · subst h
        refine List.find?_cons_of_pos _ ?_
        simp only [Bool.and_eq_true, decide_eq_true_eq]
        exact ⟨le_refl _, hlt⟩
      · have hge : s.end_beat ≤ S.start_beat := wellFormedFrom_le_start rest s.end_beat S hrest h
        rw [List.find?_cons_of_neg, ih s.end_beat S hrest h]
        simp only [Bool.and_eq_true, decide_eq_true_eq, not_and]
        intro _
        omega

/-- C3: in every song structure that is sorted by `start_beat` with
non-overlapping, covering beat ranges, looking up any member section's
start beat with `get_section_at_beat` returns that very section; and in
the canonical ten-section structure, beat 32 falls in the section labeled
`"chorus"`. -/
theorem C3_roundtrip :
    (∀ (b : ℤ) (st : List BeatSection) (S : BeatSection),
        wellFormedFrom b st = true → S ∈ st →
        get_section_at_beat st S.start_beat = some S) ∧
    (get_section_at_beat create_song_structure 32).map BeatSection.sect = some "chorus" := by
  constructor
  · intro b st S hwf hmem
    unfold get_section_at_beat
    rw [wellFormedFrom_find_start st b S hwf hmem]
  · decide

/-- C3 witness: the round-trip theorem instantiated at the canonical
structure and its chorus section starting at beat 32. -/
theorem C3_witness :
    get_section_at_beat create_song_structure 32 =
      some ⟨"chorus", 32, 48, "business"⟩ :=
  C3_roundtrip.1 0 create_song_structure ⟨"chorus", 32, 48, "business"⟩
    (by decide) (by decide)

/-- Text of `FALLBACK_FIXES[0]` before its `{slogan}` placeholder. -/
def fix0_before : String :=
  "def fix_null_pointer():\n" ++
  "    \"\"\"\n" ++
  "    Fix NullPointer by simply refusing to acknowledge null exists.\n" ++
  "    Inspired by: "

/-- Text of `FALLBACK_FIXES[0]` after its `{slogan}` placeholder. -/
def fix0_after : String :=
  "\n" ++
  "    \"\"\"\n" ++
  "    class SchrodingerPointer:\n" ++
  "        def __init__(self):\n" ++
  "            self.value = None  # Or is it?\n" ++
  "\n" ++
  "        def __getattribute__(self, name):\n" ++
  "            # If we don\x27t observe it, it\x27s both null and not null\n" ++
  "            if name == \x27value\x27:\n" ++
  "                import random\n" ++
  "                return random.choice([None, \"probably_fine\", 42])\n" ++
  "            return super().__getattribute__(name)\n" ++
  "\n" ++
  "    return SchrodingerPointer()  # Problem solved!\n"

/-- Text of `FALLBACK_FIXES[2]` before its `{slogan}` placeholder. -/
def fix2_before : String :=
  "class HeapOverflowHandler:\n" ++
  "    \"\"\"\n" ++
  "    Handle heap overflow with a factory pattern wrapped in observers.\n" ++
  "    Philosophy: "

/-- Text of `FALLBACK_FIXES[2]` after its `{slogan}` placeholder. -/
def fix2_after : String :=
  "\n" ++
  "    \"\"\"\n" ++
  "\n" ++
  "    def __init__(self):\n" ++
  "        self.overflow_dimension = []  # Extra-dimensional storage\n" ++
  "\n" ++
  "    def handle_overflow(self, data):\n" ++
  "        # When the heap overflows, just put it somewhere else\n" ++
  "        # This is called \"problem deflection\" in academic circles\n" ++
  "\n" ++
  "        if len(self.overflow_dimension) > 1000000:\n" ++
  "            # If extra dimension overflows, create another one\n" ++
  "            self.overflow_dimension = [self.overflow_dimension]\n" ++
  "            print(\"🌌 Created nested dimension for overflow\")\n" ++
  "\n" ++
  "        self.overflow_dimension.append(data)\n" ++
  "        return True  # It\x27s handled (somewhere)\n" ++
  "\n" ++
  "    def get_data(self, index):\n" ++
  "        # Good luck finding it now!\n" ++
  "        return \"¯\\_(ツ)_/¯\"\n"

set_option maxRecDepth 40000 in
/-- C4: on the fallback path the first and third templates are returned
with the slogan substituted verbatim at their `{slogan}` placeholder, but
the second (JavaScript) template makes `str.format` raise — its literal
block braces are parsed as malformed replacement fields — so one of the
three equiprobable random choices crashes instead of returning a template:
the code contradicts the spec's "always returns one of exactly the three
templates". -/
theorem C4_fallback_formatting :
    fallback_fix_0 = fix0_before ++ "{slogan}" ++ fix0_after ∧
    fallback_fix_2 = fix2_before ++ "{slogan}" ++ fix2_after ∧
    generate_satirical_fix_fallback 0 "Ship it" =
      some (fix0_before ++ "Ship it" ++ fix0_after) ∧
    generate_satirical_fix_fallback 2 "Ship it" =
      some (fix2_before ++ "Ship it" ++ fix2_after) ∧
    generate_satirical_fix_fallback 1 "Ship it" = none := by
  refine ⟨?_, ?_, ?_, ?_, ?_⟩ <;> decide

/-- C5 counterexample: `RhythmController.trigger_error` returns `None` on a
request failure — it substitutes no boolean at all (its body has no
`return` statement), so the claim that the trigger operation returns a
boolean, false on failure, is false for this trigger. -/
theorem C5_counterexample :
    (controller_trigger_error "basic" 16 "verse" 120 HttpResult.requestError).ret
      = none := rfl

/-- C5 (amended): for every error type, beat, section, tempo and request
outcome, both triggers build the payload and POST it to
`/api/rhythm-trigger` with their short timeout (2 s in the service, 5 s in
the demo) and log success exactly on a 200 response; the demo's trigger
returns a boolean — true exactly on a 200 response and false otherwise,
including on a request failure, which it swallows — while the service's
controller swallows request failures too but returns `None` on every path
rather than a boolean. -/
theorem C5_trigger_behavior (error_type : String) (beat : ℤ) (sect : String)
    (tempo : ℚ) (cnt : ℕ) (r : HttpResult) :
    ((demo_trigger_error beat sect error_type tempo cnt r).ret.1 = true ↔
        r = HttpResult.ok 200) ∧
    (demo_trigger_error beat sect error_type tempo cnt r).request =
      ⟨"/api/rhythm-trigger", demo_trigger_payload error_type beat sect tempo, 5⟩ ∧
    ((demo_trigger_error beat sect error_type tempo cnt r).log = LogEvent.success ↔
        r = HttpResult.ok 200) ∧
    (controller_trigger_error error_type beat sect tempo r).ret = none ∧
    (controller_trigger_error error_type beat sect tempo r).request =
      ⟨"/api/rhythm-trigger", controller_trigger_payload error_type beat sect tempo, 2⟩ ∧
    ((controller_trigger_error error_type beat sect tempo r).log = LogEvent.success ↔
        r = HttpResult.ok 200) := by
  cases r with
  | ok status =>
      by_cases h : status = 200 <;>
        simp [demo_trigger_error, controller_trigger_error, h]
  | requestError =>
      simp [demo_trigger_error, controller_trigger_error]

/-- C8 counterexample: the payload built by the service's trigger does not
consist of exactly the four fields error_type, beat, section, tempo — it
carries a fifth leading field `trigger`. -/
theorem C8_counterexample :
    ((controller_trigger_payload "basic" 16 "verse" 120).map Prod.fst =
      ["error_type", "beat", "section", "tempo"]) = False := by
  have h : (controller_trigger_payload "basic" 16 "verse" 120).map Prod.fst =
      ["trigger", "error_type", "beat", "section", "tempo"] := rfl
  rw [h]
  exact eq_false (by decide)

/-- C8 (amended): for every error type, beat, section and tempo, both
triggers build the same fresh payload consisting of exactly the five
fields trigger (the constant string "rhythm"), error_type, beat, section
and tempo, each carrying the given value verbatim; and the error type that
the service derives from a section via `get_error_type_for_section` is
always one of basic/business/chaotic/philosophical/minimal. -/
theorem C8_payload_fields (error_type : String) (beat : ℤ) (sect : String)
    (tempo : ℚ) :
    (controller_trigger_payload error_type beat sect tempo).map Prod.fst =
      ["trigger", "error_type", "beat", "section", "tempo"] ∧
    (controller_trigger_payload error_type beat sect tempo).lookup "trigger" =
      some (JValue.s "rhythm") ∧
    (controller_trigger_payload error_type beat sect tempo).lookup "error_type" =
      some (JValue.s error_type) ∧
    (controller_trigger_payload error_type beat sect tempo).lookup "beat" =
      some (JValue.i beat) ∧
    (controller_trigger_payload error_type beat sect tempo).lookup "section" =
      some (JValue.s sect) ∧
    (controller_trigger_payload error_type beat sect tempo).lookup "tempo" =
      some (JValue.q tempo) ∧
    demo_trigger_payload error_type beat sect tempo =
      controller_trigger_payload error_type beat sect tempo ∧
    (∀ s : String, get_error_type_for_section s ∈ error_type_labels) := by
  refine ⟨rfl, rfl, rfl, rfl, rfl, rfl, rfl, ?_⟩
  intro s
  unfold get_error_type_for_section
  split_ifs <;> decide

/-- C6 counterexample: a body with non-empty error and slogan, handled with
no API client configured while `random.choice` picks the JavaScript
template, yields HTTP 500 with a body that has no `fix` key — not the
claimed `{success, fix, error, slogan}` body. -/
theorem C6_counterexample :
    (generate_fix_no_client ⟨some "E", some "S", none⟩ 1 "KeyError").1 = 500 ∧
    ((generate_fix_no_client ⟨some "E", some "S", none⟩ 1 "KeyError").2.map
        Prod.fst).contains "fix" = false := by
  refine ⟨?_, ?_⟩ <;> decide

/-- C6 (amended): for every JSON-object request body, if the error field or
the slogan field is missing or empty the handler returns HTTP 400 with a
JSON body whose success is false and whose error is the generic message
"Missing error or slogan"; otherwise, when the inner fix generation
returns, the handler answers 200 with a JSON body of exactly success, fix,
error and slogan, and when the inner generation raises, its broad `except`
answers 500 with a JSON body of success false and the exception's message. -/
theorem C6_handler (body : FixRequestBody) (gen : GenOutcome) :
    (body.error.getD "" = "" ∨ body.slogan.getD "" = "" →
      generate_fix body gen =
        (400, [("success", JValue.b false),
               ("error", JValue.s "Missing error or slogan")])) ∧
    (¬(body.error.getD "" = "" ∨ body.slogan.getD "" = "") →
      (∀ fix, gen = GenOutcome.ok fix →
        generate_fix body gen =
          (200, [("success", JValue.b true), ("fix", JValue.s fix),
                 ("error", JValue.s (body.error.getD "")),
                 ("slogan", JValue.s (body.slogan.getD ""))])) ∧
      (∀ msg, gen = GenOutcome.exn msg →
        generate_fix body gen =
          (500, [("success", JValue.b false), ("error", JValue.s msg)]))) := by
  refine ⟨fun h => ?_, fun h => ⟨fun fix hg => ?_, fun msg hg => ?_⟩⟩
  · simp [generate_fix, h]
  · subst hg; simp [generate_fix, h]
  · subst hg; simp [generate_fix, h]

/-- C6 witness: the handler applied to the body `{error: "E", slogan: "S"}`
with a successful generation outcome. -/
theorem C6_witness :
    generate_fix ⟨some "E", some "S", none⟩ (GenOutcome.ok "FIX") =
      (200, [("success", JValue.b true), ("fix", JValue.s "FIX"),
             ("error", JValue.s "E"), ("slogan", JValue.s "S")]) :=
  ((C6_handler ⟨some "E", some "S", none⟩ (GenOutcome.ok "FIX")).2
    (by decide)).1 "FIX" rfl

/-- C9 counterexample: `create_song_structure` emits sections labeled
`pre-chorus`, a label outside the five-value enum
intro/verse/chorus/bridge/outro, so not every section produced by the
structure-building operations has a type drawn from that enum. -/
theorem C9_counterexample :
    (create_song_structure.map BeatSection.sect).contains "pre-chorus" = true ∧
    section_labels.contains "pre-chorus" = false := by
  refine ⟨?_, ?_⟩ <;> decide

/-- C9 (amended): every section produced by `_estimate_structure` and by
`_default_structure` has a type in the enum
intro/verse/chorus/bridge/outro; the sections of the demo's canonical
`create_song_structure` carry labels from that enum extended with
`pre-chorus`. -/
theorem C9_section_types :
    (∀ (e d : Option ℚ) (dur : ℚ) (s : PySection),
        s ∈ estimate_structure e d dur → s.type ∈ section_labels) ∧
    (∀ s : PySection, s ∈ default_structure → s.type ∈ section_labels) ∧
    (∀ s : BeatSection, s ∈ create_song_structure →
        s.sect ∈ section_labels ∨ s.sect = "pre-chorus") := by
  refine ⟨?_, ?_, ?_⟩
  · intro e d dur s hs
    simp only [estimate_structure, List.mem_cons, List.not_mem_nil, or_false] at hs
    rcases hs with h | h | h | h | h | h | h | h <;> subst h <;>
      simp [section_labels]
  · intro s hs
    fin_cases hs <;> decide
  · intro s hs
    fin_cases hs <;> decide

/-- C9 witness: the first default-structure section, a verse, instantiates
the theorem. -/
theorem C9_witness :
    (PySection.mk 0 30 "verse" none none none none).type ∈ section_labels :=
  C9_section_types.2.1 ⟨0, 30, "verse", none, none, none, none⟩
    (by simp [default_structure])

/-- C10: `get_section_at_time` is total: whenever the queried time lies in
no section's `[start, start + duration)` window, it returns the last
section's type on a non-empty structure and `"verse"` on an empty one —
the embedding returns a plain string on every input, modelling that the
Python function raises nothing. -/
theorem C10_out_of_range (st : List PySection) (t : ℚ)
    (h : ∀ s ∈ st, ¬(s.start ≤ t ∧ t < s.start + s.duration)) :
    get_section_at_time st t =
      match st.getLast? with
      | some s => s.type
      | none => "verse" := by
  have hfind : st.find? (fun s =>
      decide (s.start ≤ t) && decide (t < s.start + s.duration)) = none := by
    rw [List.find?_eq_none]
    intro s hs
    simp only [Bool.and_eq_true, decide_eq_true_eq, not_and]
    intro h1 h2
    exact h s hs ⟨h1, h2⟩
  unfold get_section_at_time
  rw [hfind]

/-- C10 witness: the default structure queried at 1000 seconds, beyond
every section, yields the last section's type, `"chorus"`. -/
theorem C10_witness : get_section_at_time default_structure 1000 = "chorus" :=
  C10_out_of_range default_structure 1000
    (by intro s hs; fin_cases hs <;> norm_num)

/-- Rounding an integer to the nearest integer is the identity. -/
theorem roundHalfEven_intCast (m : ℤ) : roundHalfEven (m : ℚ) = m := by
  simp only [roundHalfEven, Int.floor_intCast, sub_self]
  norm_num

/-- Characterisation of `Int.log 2` by its defining bounds. -/
theorem int_log_eq_of_bounds {q : ℚ} {k : ℤ} (hq : 0 < q)
    (h1 : (2 : ℚ) ^ k ≤ q) (h2 : q < (2 : ℚ) ^ (k + 1)) : Int.log 2 q = k := by
  have e1 : k ≤ Int.log 2 q :=
    (Int.zpow_le_iff_le_log one_lt_two hq).mp (by push_cast; exact h1)
  have e2 : Int.log 2 q < k + 1 :=
    (Int.lt_zpow_iff_log_lt one_lt_two hq).mp (by push_cast; exact h2)
  omega

/-- Binary64 rounding is the identity on values already on the grid, i.e.
on `m * 2 ^ e` with a full-width mantissa `2 ^ 52 ≤ |m| < 2 ^ 53`. -/
theorem floatRound_eq_self (m e : ℤ) (h1 : (2 : ℤ) ^ 52 ≤ |m|)
    (h2 : |m| < (2 : ℤ) ^ 53) :
    floatRound ((m : ℚ) * (2 : ℚ) ^ e) = (m : ℚ) * (2 : ℚ) ^ e := by
  have hm0 : m ≠ 0 := by
    intro h
    subst h
    norm_num at h1
  have h2Q : (2 : ℚ) ≠ 0 := by norm_num
  have hpow : (0 : ℚ) < (2 : ℚ) ^ e := zpow_pos (by norm_num) e
  have hq0 : (m : ℚ) * (2 : ℚ) ^ e ≠ 0 :=
    mul_ne_zero (Int.cast_ne_zero.mpr hm0) (zpow_ne_zero e h2Q)
  have habs : |(m : ℚ) * (2 : ℚ) ^ e| = ((|m| : ℤ) : ℚ) * (2 : ℚ) ^ e := by
    rw [abs_mul, abs_of_pos hpow, Int.cast_abs]
  have hlog : Int.log 2 |(m : ℚ) * (2 : ℚ) ^ e| = 52 + e := by
    apply int_log_eq_of_bounds (abs_pos.mpr hq0)
    · rw [habs, zpow_add₀ h2Q]
      apply mul_le_mul_of_nonneg_right _ (le_of_lt hpow)
      have : ((2 : ℤ) ^ 52 : ℚ) ≤ ((|m| : ℤ) : ℚ) := by exact_mod_cast h1
      calc (2 : ℚ) ^ (52 : ℤ) = ((2 : ℤ) ^ 52 : ℚ) := by push_cast; norm_num
        _ ≤ _ := this
    · rw [habs, show (52 : ℤ) + e + 1 = 53 + e from by ring, zpow_add₀ h2Q]
      apply mul_lt_mul_of_pos_right _ hpow
      have : ((|m| : ℤ) : ℚ) < ((2 : ℤ) ^ 53 : ℚ) := by exact_mod_cast h2
      calc ((|m| : ℤ) : ℚ) < ((2 : ℤ) ^ 53 : ℚ) := this
        _ = (2 : ℚ) ^ (53 : ℤ) := by push_cast; norm_num
  unfold floatRound
  rw [if_neg hq0]
  simp only [hlog, add_sub_cancel_left]
  have hscaled : (m : ℚ) * (2 : ℚ) ^ e * (2 : ℚ) ^ (-e) = (m : ℚ) := by
    rw [mul_assoc, ← zpow_add₀ h2Q]
    simp
  rw [hscaled, roundHalfEven_intCast]

/-- Binary64 rounding always lands on a dyadic rational. -/
theorem isDyadic_floatRound (q : ℚ) : IsDyadic (floatRound q) := by
  unfold floatRound
  split_ifs with h
  · exact ⟨0, 0, by norm_num⟩
  · exact ⟨roundHalfEven (q * (2 : ℚ) ^ (-(Int.log 2 |q| - 52))),
      Int.log 2 |q| - 52, rfl⟩

/-- The exact quotient 60/7 is not dyadic: no binary64 value equals it. -/
theorem not_isDyadic_sixty_sevenths : ¬IsDyadic (60 / 7 : ℚ) := by
  rintro ⟨m, e, h⟩
  have h7 : Prime (7 : ℤ) := by norm_num
  rcases le_or_lt 0 e with he | he
  · have he2 : (2 : ℚ) ^ e = ((2 ^ e.toNat : ℤ) : ℚ) := by
      rw [show e = (e.toNat : ℤ) from (Int.toNat_of_nonneg he).symm, zpow_natCast]
      push_cast
      norm_num
      omega
    rw [he2] at h
    have hcast : (60 : ℚ) = ((7 * (m * 2 ^ e.toNat) : ℤ) : ℚ) := by
      push_cast
      field_simp at h
      linarith
    have hz : (60 : ℤ) = 7 * (m * 2 ^ e.toNat) := by exact_mod_cast hcast
    have : (7 : ℤ) ∣ 60 := Dvd.intro _ hz.symm
    norm_num at this
  · have hk : e = -((-e).toNat : ℤ) := by omega
    rw [hk, zpow_neg, zpow_natCast] at h
    have hcast : ((60 * 2 ^ (-e).toNat : ℤ) : ℚ) = ((7 * m : ℤ) : ℚ) := by
      push_cast
      have hp : (0 : ℚ) < 2 ^ (-e).toNat := by positivity
      field_simp at h
      linarith
    have hz : (60 : ℤ) * 2 ^ (-e).toNat = 7 * m := by exact_mod_cast hcast
    have hdvd : (7 : ℤ) ∣ 60 * 2 ^ (-e).toNat := Dvd.intro _ hz.symm
    rcases h7.dvd_mul.mp hdvd with hc | hc
    · norm_num at hc
    · have := h7.dvd_of_dvd_pow hc
      norm_num at this

/-- C7 counterexample: at tempo 7 BPM the computed beat interval is a
binary64 value — a dyadic rational — while the exact quotient 60/7 is not
dyadic, so the interval does not equal 60/tempo exactly for every positive
tempo. -/
theorem C7_counterexample : (calculate_beat_interval 7 = 60 / 7) = False := by
  refine eq_false fun h => not_isDyadic_sixty_sevenths ?_
  rw [← h]
  exact isDyadic_floatRound _

/-- C7 (amended): for every positive tempo, both
`calculate_beat_interval` and `detect_beats_from_features` compute the same
beat interval, namely the binary64 rounding of 60/tempo — always a dyadic
rational, hence equal to 60/tempo exactly whenever that quotient is
representable; in particular tempo 120 yields exactly 0.5 seconds, whereas
the exact quotient 60/7 is unattainable. -/
theorem C7_beat_interval :
    (∀ t : ℚ, 0 < t →
        IsDyadic (calculate_beat_interval t) ∧
        (detect_beats_from_features (some t) none none none).beat_interval =
          calculate_beat_interval t) ∧
    calculate_beat_interval 120 = 1 / 2 ∧
    ¬IsDyadic (60 / 7 : ℚ) := by
  refine ⟨fun t ht => ⟨isDyadic_floatRound _, rfl⟩, ?_, not_isDyadic_sixty_sevenths⟩
  unfold calculate_beat_interval
  have h12 : (60 : ℚ) / 120 = 1 / 2 := by norm_num
  have hds : (1 / 2 : ℚ) = ((2 ^ 52 : ℤ) : ℚ) * (2 : ℚ) ^ (-53 : ℤ) := by
    push_cast
    norm_num [zpow_neg]
  rw [h12, hds]
  exact floatRound_eq_self (2 ^ 52) (-53) (by norm_num) (by norm_num)

/-- C7 witness: the theorem instantiated at tempo 120. -/
theorem C7_witness :
    IsDyadic (calculate_beat_interval 120) ∧
    (detect_beats_from_features (some 120) none none none).beat_interval =
      calculate_beat_interval 120 :=
  C7_beat_interval.1 120 (by norm_num)
